import Mathlib

/-!
# CampusFind — verification of the conversational form engine and its spec

Shallow embedding of the Lost & Found bot (`src/` of Fluxonide/CampusFind):
the category registry (`src/keyboards/inline.py`), the record store
(`src/database/services.py`), the conversation state machine and edit loop
(`src/handlers/found_item.py`, `src/handlers/lost_item.py`), and the
moderation overlay (`src/handlers/admin.py`).

External effects (the messaging gateway and sqlite) are modelled as explicit
parameters: message sends that can fail become `Bool` oracles, the sqlite
tables become Lean lists, and a Python exception escaping a handler becomes
an `Option` result (`none` = the handler raised past the dispatch boundary).
Python string primitives used by the payload wire format (`str.split`,
`str.strip`, `int(...)`, `str(...)`) are embedded below at the character-list
level.
-/

namespace CampusFind

/-! ## Python string primitives -/

/-- Python `s.split(sep)` for a one-character separator, on the character list:
splits at every occurrence of `sep`, keeping empty segments, and always
returns at least one segment (Python `"".split("_") == [""]`). -/
def pySplitAux (sep : Char) : List Char → List Char → List (List Char)
  | [], acc => [acc.reverse]
  | c :: rest, acc =>
    if c = sep then acc.reverse :: pySplitAux sep rest []
    else pySplitAux sep rest (c :: acc)

/-- Python `s.split(sep)` for the one-character separators used by the bot's
callback payloads (`"_"`). -/
def pySplit (sep : Char) (s : String) : List String :=
  (pySplitAux sep s.data []).map (fun cs => ⟨cs⟩)

/-- Python `s.strip()`: drop leading and trailing whitespace. -/
def pyStrip (s : String) : String :=
  ⟨((s.data.dropWhile Char.isWhitespace).reverse.dropWhile Char.isWhitespace).reverse⟩

/-- Value of a nonempty all-digit character list, as read by Python `int`:
a left fold accumulating `acc * 10 + digit`. -/
def digitsVal? (cs : List Char) : Option Nat :=
  if cs = [] then none
  else if cs.all (fun c => c.isDigit) then
    some (cs.foldl (fun acc c => acc * 10 + (c.toNat - 48)) 0)
  else none

/-- Python `int(s)` on the payload segments this bot produces and receives:
optional surrounding whitespace, an optional sign, then decimal digits;
`none` models `int` raising `ValueError`.  (`int`'s tolerance of underscore
grouping never arises here: every segment comes out of `split("_")` and so
contains no underscore.) -/
def pyInt? (s : String) : Option Int :=
  match (pyStrip s).data with
  | [] => none
  | c :: cs =>
    if c = '-' then (digitsVal? cs).map (fun n => -(n : Int))
    else if c = '+' then (digitsVal? cs).map (fun n => (n : Int))
    else (digitsVal? (c :: cs)).map (fun n => (n : Int))

/-- Scan for Python `s.replace(pattern, repl)`: left-to-right,
non-overlapping, every occurrence.  `fuel = s.length` always suffices
(each step consumes at least one character). -/
def pyReplaceAux (pat repl : List Char) : Nat → List Char → List Char
  | _, [] => []
  | 0, s => s
  | fuel + 1, c :: rest =>
    if pat.isPrefixOf (c :: rest) then
      repl ++ pyReplaceAux pat repl fuel ((c :: rest).drop pat.length)
    else
      c :: pyReplaceAux pat repl fuel rest

/-- Python `s.replace(pattern, repl)` for the nonempty patterns the bot
uses (`"edit_"`, the claimed banner). -/
def pyReplace (s pattern repl : String) : String :=
  if pattern.data = [] then s
  else ⟨pyReplaceAux pattern.data repl.data s.data.length s.data⟩

/-- Little-endian base-10 digits with explicit fuel (so that the kernel can
evaluate it on concrete numerals; `fuel = n` always suffices). -/
def pyDigitsAux : Nat → Nat → List Nat
  | 0, _ => []
  | fuel + 1, n => if n = 0 then [] else n % 10 :: pyDigitsAux fuel (n / 10)

/-- Little-endian base-10 digits of `n`. -/
def pyDigits (n : Nat) : List Nat := pyDigitsAux n n

/-- Decimal representation of a natural number, as printed by Python `str`. -/
def pyStr (n : Nat) : String :=
  if n = 0 then "0" else ⟨((pyDigits n).map Nat.digitChar).reverse⟩

/-- Python `str(i)` for an `int`: a minus sign for negatives, then digits. -/
def intStr (i : Int) : String :=
  if i < 0 then "-" ++ pyStr i.natAbs else pyStr i.natAbs

/-! ## Category registry — `CATEGORIES` in `src/keyboards/inline.py` -/

/-- The static slug ↦ display-label registry, in source order. -/
def CATEGORIES : List (String × String) :=
  [ ("pants", "👖 Pants"),
    ("jackets", "🧥 Jackets"),
    ("sweaters", "🧣 Sweaters"),
    ("shoes", "👟 Shoes"),
    ("bags", "🎒 Bags"),
    ("hats", "🎩 Hats & Caps"),
    ("badges", "🎖️ Badges & IDs"),
    ("chargers_electronics", "🔌 Chargers"),
    ("electronics_devices", "💻 Electronics"),
    ("accessories", "🕶️ Accessories"),
    ("sports_gear", "🎾 Sports Gear"),
    ("money_cards", "💰 Money & Cards"),
    ("other", "📦 Other") ]

/-- Resolution `next((k for k, v in CATEGORIES.items() if v == data.get("category")), "other")`
from the confirm handlers: resolve a display value back to its slug,
falling back to `"other"`. -/
def resolveCategoryKey (display : Option String) : String :=
  match CATEGORIES.find? (fun kv => some kv.2 = display) with
  | some kv => kv.1
  | none => "other"

/-! ## Record store — `src/database/services.py` and `src/database/models.py` -/

/-- A row of the `found_items` / `lost_items` tables that the claims are
about: the category slug and the feed `message_id`, which sqlite stores as
`TEXT` (the handlers insert `str(message_id)`). -/
structure ItemRecord where
  category : String
  message_id : String
deriving DecidableEq

/-- Service `add_found_item(category, message_id)`: `INSERT INTO found_items
(category, message_id, date) VALUES (?, str(message_id), now)`. -/
def add_found_item (store : List ItemRecord) (category : String) (message_id : Int) :
    List ItemRecord :=
  store ++ [{ category := category, message_id := intStr message_id }]

/-- Service `delete_item(message_id)`: `DELETE FROM found_items WHERE message_id = ?`. -/
def delete_item (store : List ItemRecord) (message_id : String) : List ItemRecord :=
  store.filter (fun r => r.message_id ≠ message_id)

/-- Modelled from the spec: `db.get_item_category(msg_id)` is called by
`handle_channel_found` (src/handlers/admin.py line 209) but no such function
is defined under `src/database/`.  Per §4.5 the claim action "attaches an
undo action carrying the item's category", so this looks up the stored
item's category by its feed reference. -/
def get_item_category (store : List ItemRecord) (message_id : String) : Option String :=
  (store.find? (fun r => r.message_id = message_id)).map (fun r => r.category)

/-- Modelled from the spec: `db.add_lost_item(category_key, message_id)` is
called by `lost_confirm_submission` (src/handlers/lost_item.py line 442) but
no such function is defined under `src/database/`; the `lost_items` table it
would fill is created in `src/database/models.py`.  Per §4.4 step 4 the
pipeline persists an `ItemRecord`, so this inserts one exactly as
`add_found_item` does into `found_items`. -/
def add_lost_item (store : List ItemRecord) (category : String) (message_id : Int) :
    List ItemRecord :=
  store ++ [{ category := category, message_id := intStr message_id }]

/-- Service `subscribe(user_id, category)`: `INSERT OR IGNORE` against the
`user_subscriptions` table, whose primary key is `(user_id, category)` —
a no-op when the pair is already present. -/
def subscribe (subs : List (Int × String)) (user_id : Int) (category : String) :
    List (Int × String) :=
  if (user_id, category) ∈ subs then subs else subs ++ [(user_id, category)]

/-- Service `get_subscribers(category)`: `SELECT DISTINCT user_id FROM
user_subscriptions WHERE category = ?`. -/
def get_subscribers (subs : List (Int × String)) (category : String) : List Int :=
  ((subs.filter (fun s => s.2 = category)).map (fun s => s.1)).dedup

/-! ## Conversation state — aiogram `FSMContext`, states from `src/states/forms.py` -/

/-- The FSM state tags of `src/states/forms.py`; `idle` is the cleared
(`None`) state. -/
inductive FsmTag
  | idle
  | FoundItemForm_photo | FoundItemForm_category | FoundItemForm_location | FoundItemForm_comments
  | EditingForm_photo | EditingForm_category | EditingForm_location | EditingForm_comments
  | FilterForm_category | FilterForm_days
  | SearchState_viewing
  | LostItemForm_photo | LostItemForm_category
  | LostEditingForm_photo | LostEditingForm_category | LostEditingForm_location
  | LostEditingForm_contact | LostEditingForm_comments
  | NotificationForm_action | NotificationForm_subscribe | NotificationForm_unsubscribe
  | AdminForm_broadcast
deriving DecidableEq

/-- The per-user data bag kept by `state.update_data` / `state.get_data`:
the form fields of the found/lost flows, plus the UI message references the
handlers track so they can retract stale messages.  `none` models an absent
key. -/
structure FormData where
  photo : Option String := none
  category : Option String := none
  location : Option String := none
  contact : Option String := none
  comments : Option String := none
  last_bot_message : Option Int := none
  summary_message : Option Int := none
  buttons_message : Option Int := none
deriving DecidableEq

/-- One user's `FSMContext`: current state tag plus data bag.
`state.clear()` resets both (to `{}`). -/
structure FSMContext where
  state : FsmTag := .idle
  data : FormData := {}
deriving DecidableEq

/-! ## Flow entry handlers (claim C5) -/

/-- Handler `cmd_found` (src/handlers/found_item.py): `/found` clears the FSM
unconditionally, enters `FoundItemForm.photo` and records the prompt's
message id.  `ctx` is the user's prior context, discarded by
`state.clear()`; `mId` is the id of the prompt the bot just sent. -/
def cmd_found (prior : FSMContext) (mId : Int) : FSMContext :=
  let ctx : FSMContext := {}
  { ctx with state := .FoundItemForm_photo,
             data := { ctx.data with last_bot_message := some mId } }

/-- Handler `start_make_order` (src/handlers/found_item.py): the `makeOrder`
callback enters `FoundItemForm.photo` *without* `state.clear()` — the prior
data bag is kept, only the state tag and `last_bot_message` change. -/
def start_make_order (ctx : FSMContext) (mId : Int) : FSMContext :=
  { ctx with state := .FoundItemForm_photo,
             data := { ctx.data with last_bot_message := some mId } }

/-- Handler `cmd_lost` (src/handlers/lost_item.py): `/lost` clears the FSM
unconditionally and shows the search/report menu (no state is set and no
data is written until a menu button is pressed). -/
def cmd_lost (prior : FSMContext) : FSMContext :=
  let ctx : FSMContext := {}
  ctx

/-- Handler `handle_lost_report` (src/handlers/lost_item.py): the `lost_report`
menu button clears the FSM unconditionally, then enters
`LostItemForm.photo` recording the photo prompt's message id. -/
def handle_lost_report (prior : FSMContext) (mId : Int) : FSMContext :=
  let ctx : FSMContext := {}
  { ctx with state := .LostItemForm_photo,
             data := { ctx.data with last_bot_message := some mId } }

/-! ## Summary rendering — `_show_summary` / `_show_lost_summary` -/

/-- The summary text composed by `_show_summary` in
src/handlers/found_item.py (`data.get(key, '-')` renders an absent field
as `-`). -/
def found_summary_text (d : FormData) : String :=
  "📄 <b>Review Your Form:</b>\n<b>Category:</b> " ++ d.category.getD "-" ++
  "\n<b>Location:</b> " ++ d.location.getD "-" ++
  "\n<b>Comments:</b> " ++ d.comments.getD "-"

/-- The summary text composed by `_show_lost_summary` in
src/handlers/lost_item.py. -/
def lost_summary_text (d : FormData) : String :=
  "📄 <b>Review Your Lost Item Report:</b>\n<b>Category:</b> " ++ d.category.getD "-" ++
  "\n<b>Location:</b> " ++ d.location.getD "-" ++
  "\n<b>Contact:</b> " ++ d.contact.getD "-" ++
  "\n<b>Comments:</b> " ++ d.comments.getD "-"

/-- Helper `_show_summary(message, data, state, bot)`: retracts the old summary
and buttons messages (best-effort gateway deletes, no state effect),
renders the summary from the current data, sends it plus the button row
(fresh ids `sId`, `bId`), and records both ids in the data bag.  Returns
the updated bag and the rendered summary text. -/
def show_summary (d : FormData) (sId bId : Int) : FormData × String :=
  ({ d with summary_message := some sId, buttons_message := some bId },
   found_summary_text d)

/-- Helper `_show_lost_summary`, same shape as `show_summary`. -/
def show_lost_summary (d : FormData) (sId bId : Int) : FormData × String :=
  ({ d with summary_message := some sId, buttons_message := some bId },
   lost_summary_text d)

/-! ## Edit loop — `handle_edit` and the field-update handlers (claims C6, C7) -/

/-- Handler `handle_edit` (src/handlers/found_item.py): an `edit_<field>` callback
strips the `edit_` prefix (`callback.data.replace("edit_", "")`), sends the
field's prompt (id `pid`), records it and enters the matching
`EditingForm` state; an unrecognized field name falls through with no state
change.  The stale summary/buttons messages are then deleted (gateway
only). -/
def handle_edit (ctx : FSMContext) (payload : String) (pid : Int) : FSMContext :=
  let action := pyReplace payload "edit_" ""
  if action = "photo" then
    { ctx with state := .EditingForm_photo,
               data := { ctx.data with last_bot_message := some pid } }
  else if action = "category" then
    { ctx with state := .EditingForm_category,
               data := { ctx.data with last_bot_message := some pid } }
  else if action = "location" then
    { ctx with state := .EditingForm_location,
               data := { ctx.data with last_bot_message := some pid } }
  else if action = "comments" then
    { ctx with state := .EditingForm_comments,
               data := { ctx.data with last_bot_message := some pid } }
  else ctx

/-- Handler `update_location` (src/handlers/found_item.py): in `EditingForm.location`,
a text message updates `location` only when the text is non-empty and does
not strip to the skip marker `-`; then the summary is re-rendered
(`_show_summary` with fresh ids `sId`, `bId`).  `text = none` models a
non-text message (Python `message.text is None`).  Returns the new context
and the rendered summary. -/
def update_location (ctx : FSMContext) (text : Option String) (sId bId : Int) :
    FSMContext × String :=
  let d := match text with
    | some t => if t ≠ "" ∧ pyStrip t ≠ "-" then { ctx.data with location := some t } else ctx.data
    | none => ctx.data
  let (d2, s) := show_summary d sId bId
  ({ ctx with data := d2 }, s)

/-- Handler `update_comments` (src/handlers/found_item.py), same guard for the
`comments` field. -/
def update_comments (ctx : FSMContext) (text : Option String) (sId bId : Int) :
    FSMContext × String :=
  let d := match text with
    | some t => if t ≠ "" ∧ pyStrip t ≠ "-" then { ctx.data with comments := some t } else ctx.data
    | none => ctx.data
  let (d2, s) := show_summary d sId bId
  ({ ctx with data := d2 }, s)

/-- Handler `lost_update_location` (src/handlers/lost_item.py). -/
def lost_update_location (ctx : FSMContext) (text : Option String) (sId bId : Int) :
    FSMContext × String :=
  let d := match text with
    | some t => if t ≠ "" ∧ pyStrip t ≠ "-" then { ctx.data with location := some t } else ctx.data
    | none => ctx.data
  let (d2, s) := show_lost_summary d sId bId
  ({ ctx with data := d2 }, s)

/-- Handler `lost_update_contact` (src/handlers/lost_item.py). -/
def lost_update_contact (ctx : FSMContext) (text : Option String) (sId bId : Int) :
    FSMContext × String :=
  let d := match text with
    | some t => if t ≠ "" ∧ pyStrip t ≠ "-" then { ctx.data with contact := some t } else ctx.data
    | none => ctx.data
  let (d2, s) := show_lost_summary d sId bId
  ({ ctx with data := d2 }, s)

/-- Handler `lost_update_comments` (src/handlers/lost_item.py). -/
def lost_update_comments (ctx : FSMContext) (text : Option String) (sId bId : Int) :
    FSMContext × String :=
  let d := match text with
    | some t => if t ≠ "" ∧ pyStrip t ≠ "-" then { ctx.data with comments := some t } else ctx.data
    | none => ctx.data
  let (d2, s) := show_lost_summary d sId bId
  ({ ctx with data := d2 }, s)

/-! ## Submission pipeline — `confirm_submission` / `lost_confirm_submission`
(claims C2, C3, C8, C9)

Gateway calls that can fail become `Bool` oracles: `post_ok` (the
`send_photo`/`send_message` to the channel), `attach_ok`
(`edit_message_reply_markup`), `persist_ok` (the sqlite insert), and
`failing` (the users whose notification delivery raises).  All of the
Python handlers' steps sit in one `try` block whose `except` answers the
generic failure notice, except the per-subscriber loop whose body has its
own `try`/`except`. -/

/-- Result of one run of the found-item confirm handler. -/
structure FoundOutcome where
  /-- The text answered to the submitter. -/
  notice : String
  /-- The `found_items` table after the run. -/
  found_items : List ItemRecord
  /-- Subscribers to whom a notification delivery was attempted. -/
  attempted : List Int
  /-- Subscribers whose delivery succeeded. -/
  delivered : List Int
  /-- Subscribers whose delivery raised (logged, loop continues). -/
  failed_deliveries : List Int
  /-- The FSM after the run (`state.clear()` runs after the `try`/`except`). -/
  fsm : FSMContext
deriving DecidableEq

/-- Handler `confirm_submission` (src/handlers/found_item.py): resolve the category
slug, post to the channel (`data["photo"]` raises `KeyError` inside the
`try` when the photo field is absent), attach the claim button, insert the
`found_items` row, then notify each subscriber of the slug with a
per-subscriber `try`/`except`; any exception before the loop aborts to the
generic failure notice.  `state.clear()` runs on every path. -/
def confirm_submission (ctx : FSMContext) (store : List ItemRecord)
    (subs : List (Int × String)) (ref : Int)
    (post_ok attach_ok persist_ok : Bool) (failing : List Int) : FoundOutcome :=
  let data := ctx.data
  let category_key := resolveCategoryKey data.category
  let cleared : FSMContext := {}
  match data.photo with
  | none => ⟨"⚠️ Failed to submit form", store, [], [], [], cleared⟩
  | some _ =>
    if !post_ok then ⟨"⚠️ Failed to submit form", store, [], [], [], cleared⟩
    else if !attach_ok then ⟨"⚠️ Failed to submit form", store, [], [], [], cleared⟩
    else if !persist_ok then ⟨"⚠️ Failed to submit form", store, [], [], [], cleared⟩
    else
      let store2 := add_found_item store category_key ref
      let subscribers := get_subscribers subs category_key
      ⟨"✅ Form submitted successfully!", store2,
        subscribers,
        subscribers.filter (fun u => !failing.contains u),
        subscribers.filter (fun u => failing.contains u),
        cleared⟩

/-- Result of one run of the lost-item confirm handler. -/
structure LostOutcome where
  /-- The text answered to the submitter. -/
  notice : String
  /-- The `lost_items` table after the run. -/
  lost_items : List ItemRecord
  /-- The FSM after the run. -/
  fsm : FSMContext
deriving DecidableEq

/-- Handler `lost_confirm_submission` (src/handlers/lost_item.py): post to the
channel (photo post when a photo is set, text post otherwise — `post_ok`
covers either), attach the claim button, insert the `lost_items` row
(via the spec-modelled `add_lost_item`); no subscriber notification.
Any exception aborts to the failure notice; `state.clear()` runs on every
path. -/
def lost_confirm_submission (ctx : FSMContext) (store : List ItemRecord) (ref : Int)
    (post_ok attach_ok persist_ok : Bool) : LostOutcome :=
  let data := ctx.data
  let category_key := resolveCategoryKey data.category
  let cleared : FSMContext := {}
  if !post_ok then ⟨"⚠️ Failed to submit lost item report", store, cleared⟩
  else if !attach_ok then ⟨"⚠️ Failed to submit lost item report", store, cleared⟩
  else if !persist_ok then ⟨"⚠️ Failed to submit lost item report", store, cleared⟩
  else ⟨"✅ Lost item report submitted successfully!", add_lost_item store category_key ref, cleared⟩

/-! ## Moderation overlay — `handle_channel_found` / `handle_channel_undo`
(claims C1, C4) -/

/-- The banner prepended to a claimed post's caption. -/
def CLAIMED_BANNER : String := "✅ ITEM HAS BEEN CLAIMED ✅\n\n"

/-- Result of a moderation-button handler run, `none` when the handler
raised past the dispatch boundary. -/
structure ModResult where
  /-- The `found_items` table after the run. -/
  store : List ItemRecord
  /-- The caption of the touched feed post after the run. -/
  caption : String
  /-- Callback payload of the button the run attached to the post, if any. -/
  button_payload : Option String
  /-- The `callback.answer` toast text. -/
  answer : String
deriving DecidableEq

/-- Handler `handle_channel_found` (src/handlers/admin.py): a `ch_found_<id>`
press by an admin fetches the item's category (spec-modelled
`get_item_category`, with Python's `or "other"` treating both a missing
row and an empty slug as falsy), prepends the claimed banner to the
caption, attaches the `ch_undo_<id>_<category>` button, and deletes the
`found_items` row.  `parts[2]` is read before the `try` (an absent index
would raise, modelled as `none`); `int(msg_id)` and the caption edit
(`edit_ok`) sit inside the `try`, so their failures answer the error toast
and change nothing. -/
def handle_channel_found (payload caption : String) (store : List ItemRecord)
    (admin edit_ok : Bool) : Option ModResult :=
  if !admin then some ⟨store, caption, none, "⛔ Only admins can mark items as claimed."⟩
  else
    match (pySplit '_' payload).get? 2 with
    | none => none
    | some msg_id =>
      let category := match get_item_category store msg_id with
        | some s => if s = "" then "other" else s
        | none => "other"
      let new_caption := CLAIMED_BANNER ++ caption
      match pyInt? msg_id with
      | none => some ⟨store, caption, none, "❌ Error"⟩
      | some n =>
        if !edit_ok then some ⟨store, caption, none, "❌ Error"⟩
        else some ⟨delete_item store msg_id, new_caption,
                   some ("ch_undo_" ++ intStr n ++ "_" ++ category),
                   "✅ Marked as claimed!"⟩

/-- Handler `handle_channel_undo` (src/handlers/admin.py): a `ch_undo_<id>_<cat>`
press by an admin strips the claimed banner (`str.replace`, all
occurrences), restores the `ch_found_<id>` button, and re-inserts the
`found_items` row with the parsed category — `parts[3] if len(parts) > 3
else "other"`, so a slug is cut at its first underscore.  `parts[2]` is
read before the `try`; `int(msg_id)` and the caption edit sit inside it. -/
def handle_channel_undo (payload caption : String) (store : List ItemRecord)
    (admin edit_ok : Bool) : Option ModResult :=
  if !admin then some ⟨store, caption, none, "⛔ Only admins can undo."⟩
  else
    match (pySplit '_' payload).get? 2 with
    | none => none
    | some msg_id =>
      let category := (pySplit '_' payload).getD 3 "other"
      let restored := pyReplace caption CLAIMED_BANNER ""
      match pyInt? msg_id with
      | none => some ⟨store, caption, none, "❌ Error"⟩
      | some n =>
        if !edit_ok then some ⟨store, caption, none, "❌ Error"⟩
        else some ⟨add_found_item store category n, restored,
                   some ("ch_found_" ++ intStr n),
                   "↩️ Undo successful — item restored!"⟩

/-- Handler `handle_notification_delete` (src/handlers/found_item.py): the
`notif_delete_<id>` button.  `int(callback.data.split("_")[-1])` runs
*before* the handler's `try` block, so a non-numeric trailing segment
raises `ValueError` past the dispatch boundary (`none`); otherwise the
deletes are attempted inside the `try` (failures logged) and the handler
answers `"Notification deleted"` either way. -/
def handle_notification_delete (payload : String) : Option String :=
  match pyInt? ((pySplit '_' payload).getLast?.getD "") with
  | none => none
  | some _ => some "Notification deleted"

/-! ## Lemmas about the Python string primitives -/

theorem pyDigitsAux_eq_digits :
    ∀ (fuel n : Nat), n ≤ fuel → pyDigitsAux fuel n = Nat.digits 10 n
  | 0, n, h => by
      have hn : n = 0 := Nat.le_zero.mp h
      subst hn
      simp [pyDigitsAux]
  | fuel + 1, n, h => by
      rcases Nat.eq_zero_or_pos n with h0 | h0
      · subst h0; simp [pyDigitsAux]
      · have hne : n ≠ 0 := Nat.pos_iff_ne_zero.mp h0
        have hdiv : n / 10 ≤ fuel := by
          have := Nat.div_lt_self h0 (by norm_num : 1 < 10)
          omega
        rw [pyDigitsAux, if_neg hne, pyDigitsAux_eq_digits fuel (n / 10) hdiv,
          ← Nat.digits_def' (by norm_num : 1 < 10) h0]

theorem pyDigits_eq_digits (n : Nat) : pyDigits n = Nat.digits 10 n :=
  pyDigitsAux_eq_digits n n le_rfl

theorem digitChar_facts {d : Nat} (hd : d < 10) :
    (Nat.digitChar d).isDigit = true ∧ (Nat.digitChar d).isWhitespace = false ∧
      (Nat.digitChar d).toNat - 48 = d ∧ Nat.digitChar d ≠ '_' := by
  interval_cases d <;> exact ⟨by decide, by decide, by decide, by decide⟩

theorem pyStr_chars {n : Nat} {c : Char} (hc : c ∈ (pyStr n).data) :
    c.isDigit = true ∧ c.isWhitespace = false ∧ c ≠ '_' := by
  unfold pyStr at hc
  by_cases h0 : n = 0
  · rw [if_pos h0] at hc
    have : c = '0' := by simpa using hc
    subst this
    exact ⟨by decide, by decide, by decide⟩
  · rw [if_neg h0] at hc
    have hc2 : c ∈ ((pyDigits n).map Nat.digitChar).reverse := hc
    rw [List.mem_reverse, List.mem_map] at hc2
    obtain ⟨d, hd, rfl⟩ := hc2
    rw [pyDigits_eq_digits] at hd
    have hlt : d < 10 := Nat.digits_lt_base (by norm_num) hd
    obtain ⟨h1, h2, _, h4⟩ := digitChar_facts hlt
    exact ⟨h1, h2, h4⟩

theorem pyStr_ne_nil (n : Nat) : (pyStr n).data ≠ [] := by
  unfold pyStr
  by_cases h0 : n = 0
  · rw [if_pos h0]; decide
  · rw [if_neg h0]
    show ((pyDigits n).map Nat.digitChar).reverse ≠ []
    simp [pyDigits_eq_digits, Nat.digits_ne_nil_iff_ne_zero.mpr h0]

theorem foldl_base10 (ds : List Nat) (acc : Nat) :
    ds.reverse.foldl (fun a d => a * 10 + d) acc =
      acc * 10 ^ ds.length + Nat.ofDigits 10 ds := by
  induction ds generalizing acc with
  | nil => simp [Nat.ofDigits]
  | cons d t ih =>
      simp only [List.reverse_cons, List.foldl_append, List.foldl_cons, List.foldl_nil, ih,
        Nat.ofDigits_cons, List.length_cons, pow_succ, Nat.cast_id]
      ring

theorem foldl_digitChar (l : List Nat) (h : ∀ d ∈ l, d < 10) (acc : Nat) :
    l.foldl (fun a d => a * 10 + ((Nat.digitChar d).toNat - 48)) acc =
      l.foldl (fun a d => a * 10 + d) acc := by
  induction l generalizing acc with
  | nil => rfl
  | cons d t ih =>
      have hd : d < 10 := h d (List.mem_cons_self _ _)
      simp only [List.foldl_cons, (digitChar_facts hd).2.2.1]
      exact ih (fun x hx => h x (List.mem_cons_of_mem _ hx)) _

theorem digitsVal?_pyStr (n : Nat) : digitsVal? (pyStr n).data = some n := by
  have hall : ((pyStr n).data.all (fun c => c.isDigit)) = true := by
    rw [List.all_eq_true]
    intro c hc
    exact (pyStr_chars hc).1
  by_cases h0 : n = 0
  · subst h0; decide
  · have hdata : (pyStr n).data = (pyDigits n).reverse.map Nat.digitChar := by
      unfold pyStr
      rw [if_neg h0]
      exact (List.map_reverse Nat.digitChar (pyDigits n)).symm
    unfold digitsVal?
    rw [if_neg (pyStr_ne_nil n), if_pos hall, hdata, List.foldl_map,
      foldl_digitChar _ (fun d hd => by
        rw [List.mem_reverse, pyDigits_eq_digits] at hd
        exact Nat.digits_lt_base (by norm_num) hd),
      foldl_base10]
    simp [pyDigits_eq_digits, Nat.ofDigits_digits]

theorem dropWhile_no_ws :
    ∀ (l : List Char), (∀ c ∈ l, c.isWhitespace = false) →
      l.dropWhile Char.isWhitespace = l
  | [], _ => rfl
  | c :: t, h => by
      rw [List.dropWhile_cons, if_neg]
      simp [h c (List.mem_cons_self _ _)]

theorem pyStrip_no_ws {s : String} (h : ∀ c ∈ s.data, c.isWhitespace = false) :
    pyStrip s = s := by
  unfold pyStrip
  rw [dropWhile_no_ws _ h,
    dropWhile_no_ws _ (fun c hc => h c (List.mem_reverse.mp hc)),
    List.reverse_reverse]

theorem isDigit_ne_sign {c : Char} (h : c.isDigit = true) : c ≠ '-' ∧ c ≠ '+' := by
  constructor <;> rintro rfl <;> simp at h

theorem pyInt?_pyStr (n : Nat) : pyInt? (pyStr n) = some (n : Int) := by
  unfold pyInt?
  rw [pyStrip_no_ws (fun c hc => (pyStr_chars hc).2.1)]
  rcases hd : (pyStr n).data with _ | ⟨c, cs⟩
  · exact absurd hd (pyStr_ne_nil n)
  · have hcdig : c.isDigit = true :=
      (pyStr_chars (by rw [hd]; exact List.mem_cons_self _ _)).1
    obtain ⟨hm, hp⟩ := isDigit_ne_sign hcdig
    simp only [if_neg hm, if_neg hp]
    rw [← hd, digitsVal?_pyStr n]
    rfl

theorem data_append (s t : String) : (s ++ t).data = s.data ++ t.data := rfl

theorem pyInt?_intStr (i : Int) : pyInt? (intStr i) = some i := by
  unfold intStr
  by_cases h : i < 0
  · rw [if_pos h]
    have hdata : ("-" ++ pyStr i.natAbs).data = '-' :: (pyStr i.natAbs).data := rfl
    unfold pyInt?
    rw [pyStrip_no_ws (fun c hc => by
      rw [hdata] at hc
      rcases List.mem_cons.mp hc with rfl | hc2
      · decide
      · exact (pyStr_chars hc2).2.1)]
    rw [hdata]
    simp [digitsVal?_pyStr, Int.ofNat_natAbs_of_nonpos (le_of_lt h)]
  · rw [if_neg h, pyInt?_pyStr]
    congr 1
    exact Int.natAbs_of_nonneg (not_lt.mp h)

theorem intStr_chars {i : Int} {c : Char} (hc : c ∈ (intStr i).data) : c ≠ '_' := by
  unfold intStr at hc
  by_cases h : i < 0
  · rw [if_pos h] at hc
    rcases List.mem_cons.mp hc with rfl | hc2
    · decide
    · exact (pyStr_chars hc2).2.2
  · rw [if_neg h] at hc
    exact (pyStr_chars hc).2.2

/-! ## Lemmas about `pySplit` -/

theorem pySplitAux_ne_nil (sep : Char) :
    ∀ (cs acc : List Char), pySplitAux sep cs acc ≠ []
  | [], acc => by simp [pySplitAux]
  | c :: rest, acc => by
      rw [pySplitAux]
      split
      · simp
      · exact pySplitAux_ne_nil sep rest _

theorem pySplitAux_append (sep : Char) (ys : List Char) :
    ∀ (xs acc : List Char), (∀ c ∈ xs, c ≠ sep) →
      pySplitAux sep (xs ++ sep :: ys) acc = (acc.reverse ++ xs) :: pySplitAux sep ys []
  | [], acc, _ => by simp [pySplitAux]
  | x :: xs, acc, h => by
      have hx : x ≠ sep := h x (List.mem_cons_self _ _)
      rw [List.cons_append, pySplitAux, if_neg hx,
        pySplitAux_append sep ys xs (x :: acc) (fun c hc => h c (List.mem_cons_of_mem _ hc))]
      simp

theorem pySplitAux_no_sep (sep : Char) :
    ∀ (cs acc : List Char), (∀ c ∈ cs, c ≠ sep) →
      pySplitAux sep cs acc = [acc.reverse ++ cs]
  | [], acc, _ => by simp [pySplitAux]
  | c :: rest, acc, h => by
      rw [pySplitAux, if_neg (h c (List.mem_cons_self _ _)),
        pySplitAux_no_sep sep rest (c :: acc) (fun x hx => h x (List.mem_cons_of_mem _ hx))]
      simp

theorem pySplit_ne_nil (sep : Char) (s : String) : pySplit sep s ≠ [] := by
  unfold pySplit
  simp [pySplitAux_ne_nil]

theorem pySplit_ch_found (s : String) (h : ∀ c ∈ s.data, c ≠ '_') :
    pySplit '_' ("ch_found_" ++ s) = ["ch", "found", s] := by
  unfold pySplit
  have hd : ("ch_found_" ++ s).data =
      ['c', 'h'] ++ '_' :: (['f', 'o', 'u', 'n', 'd'] ++ '_' :: s.data) := rfl
  rw [hd, pySplitAux_append _ _ _ _ (by decide), pySplitAux_append _ _ _ _ (by decide),
    pySplitAux_no_sep _ _ _ h]
  simp

theorem pySplit_ch_undo (s : String) :
    pySplit '_' ("ch_undo_" ++ s) = "ch" :: "undo" :: pySplit '_' s := by
  unfold pySplit
  have hd : ("ch_undo_" ++ s).data =
      ['c', 'h'] ++ '_' :: (['u', 'n', 'd', 'o'] ++ '_' :: s.data) := rfl
  rw [hd, pySplitAux_append _ _ _ _ (by decide), pySplitAux_append _ _ _ _ (by decide)]
  simp

theorem pySplit_notif_delete (s : String) (h : ∀ c ∈ s.data, c ≠ '_') :
    pySplit '_' ("notif_delete_" ++ s) = ["notif", "delete", s] := by
  unfold pySplit
  have hd : ("notif_delete_" ++ s).data =
      ['n', 'o', 't', 'i', 'f'] ++ '_' :: (['d', 'e', 'l', 'e', 't', 'e'] ++ '_' :: s.data) := rfl
  rw [hd, pySplitAux_append _ _ _ _ (by decide), pySplitAux_append _ _ _ _ (by decide),
    pySplitAux_no_sep _ _ _ h]
  simp

/-- A slug with no underscore and a sep-free reference survive the undo
payload's `split("_")` intact. -/
theorem pySplit_undo_payload (i : Int) (c : String) (h : ∀ x ∈ c.data, x ≠ '_') :
    pySplit '_' ("ch_undo_" ++ intStr i ++ "_" ++ c) = ["ch", "undo", intStr i, c] := by
  have hassoc : "ch_undo_" ++ intStr i ++ "_" ++ c = "ch_undo_" ++ (intStr i ++ "_" ++ c) := by
    simp [String.append_assoc]
  rw [hassoc, pySplit_ch_undo]
  unfold pySplit
  have hd : (intStr i ++ "_" ++ c).data = (intStr i).data ++ '_' :: c.data := by
    rw [data_append, data_append, List.append_assoc]
    rfl
  rw [hd, pySplitAux_append _ _ _ _ (fun x hx => intStr_chars hx),
    pySplitAux_no_sep _ _ _ h]
  simp

/-! ## Store lookup lemmas -/

theorem find?_eq_head?_filter {α : Type} (p : α → Bool) :
    ∀ (l : List α), l.find? p = (l.filter p).head?
  | [] => rfl
  | a :: t => by
      by_cases h : p a
      · rw [List.find?_cons_of_pos _ h, List.filter_cons_of_pos h]
        rfl
      · rw [List.find?_cons_of_neg _ (by simpa using h),
          List.filter_cons_of_neg (by simpa using h), find?_eq_head?_filter p t]

/-- Deleting every row with a given `message_id` leaves no row with it. -/
theorem filter_delete_item (store : List ItemRecord) (m : String) :
    (delete_item store m).filter (fun r => r.message_id = m) = [] := by
  unfold delete_item
  induction store with
  | nil => rfl
  | cons a t ih =>
      by_cases h : a.message_id = m <;> simp [List.filter_cons, h, ih]

/-! ## Claim C10 — subscription idempotence -/

/-- Claim C10: subscribing twice to the same `(userId, category)` pair leaves
the store as subscribing once does; at most one `SubscriptionRecord` exists
per pair (the pair's multiplicity after a subscribe is `max` of its old
multiplicity and 1, so it never grows past 1); and `get_subscribers`
(a `SELECT DISTINCT`) returns each subscribed user at most once per
category. -/
theorem c10_subscribe_idempotent :
    (∀ (subs : List (Int × String)) (u : Int) (c : String),
        subscribe (subscribe subs u c) u c = subscribe subs u c) ∧
    (∀ (subs : List (Int × String)) (u : Int) (c : String),
        (subscribe subs u c).count (u, c) = max (subs.count (u, c)) 1) ∧
    (∀ (subs : List (Int × String)) (c : String), (get_subscribers subs c).Nodup) := by
  refine ⟨?_, ?_, ?_⟩
  · intro subs u c
    unfold subscribe
    by_cases h : (u, c) ∈ subs <;> simp [h]
  · intro subs u c
    unfold subscribe
    by_cases h : (u, c) ∈ subs
    · rw [if_pos h]
      have h1 : 0 < subs.count (u, c) := List.count_pos_iff.mpr h
      omega
    · rw [if_neg h]
      have h0 : subs.count (u, c) = 0 := List.count_eq_zero.mpr h
      rw [List.count_append, h0]
      simp
  · intro subs c
    exact List.nodup_dedup _

/-! ## Claim C5 — flow entry clears the prior conversation -/

/-- Claim C5 (counterexample): the `makeOrder` callback is an entry event of
the found-item flow (it enters `FoundItemForm.photo`) but performs no
`state.clear()` — a user left in `EDIT_location` with a stored location
keeps that stray field after entering the flow. -/
theorem c5_counterexample :
    (start_make_order ⟨.EditingForm_location, { location := some "Room 1" }⟩ 5).state =
        .FoundItemForm_photo ∧
    (start_make_order ⟨.EditingForm_location, { location := some "Room 1" }⟩ 5).data.location =
        some "Room 1" := by
  exact ⟨rfl, rfl⟩

/-- Claim C5 (amended): the command entries `/found`, `/lost` and the
`lost_report` menu button clear the prior `ConversationRecord`
unconditionally — their result is independent of the prior context and
carries no form field; the legacy `makeOrder` callback entry instead keeps
the prior data bag, changing only the state tag and the prompt
reference. -/
theorem c5_entry_clears_amended :
    ∀ (prior : FSMContext) (m : Int),
      cmd_found prior m = ⟨.FoundItemForm_photo, { last_bot_message := some m }⟩ ∧
      cmd_lost prior = ⟨.idle, {}⟩ ∧
      handle_lost_report prior m = ⟨.LostItemForm_photo, { last_bot_message := some m }⟩ ∧
      start_make_order prior m =
        ⟨.FoundItemForm_photo, { prior.data with last_bot_message := some m }⟩ := by
  intro prior m
  exact ⟨rfl, rfl, rfl, rfl⟩

/-! ## Claim C6 — the skip marker is a no-op -/

/-- Claim C6: in each editable-text edit state (found: location, comments;
lost: location, contact, comments), supplying the literal `-` leaves every
form field as it was (in particular a previously set value is kept, not
cleared) and re-renders the summary from the unchanged fields — the
conversation is back at the summary view. -/
theorem c6_skip_marker_noop :
    ∀ (ctx : FSMContext) (sId bId : Int),
      (update_location ctx (some "-") sId bId).1.data =
        { ctx.data with summary_message := some sId, buttons_message := some bId } ∧
      (update_location ctx (some "-") sId bId).2 = found_summary_text ctx.data ∧
      (update_comments ctx (some "-") sId bId).1.data =
        { ctx.data with summary_message := some sId, buttons_message := some bId } ∧
      (update_comments ctx (some "-") sId bId).2 = found_summary_text ctx.data ∧
      (lost_update_location ctx (some "-") sId bId).1.data =
        { ctx.data with summary_message := some sId, buttons_message := some bId } ∧
      (lost_update_location ctx (some "-") sId bId).2 = lost_summary_text ctx.data ∧
      (lost_update_contact ctx (some "-") sId bId).1.data =
        { ctx.data with summary_message := some sId, buttons_message := some bId } ∧
      (lost_update_contact ctx (some "-") sId bId).2 = lost_summary_text ctx.data ∧
      (lost_update_comments ctx (some "-") sId bId).1.data =
        { ctx.data with summary_message := some sId, buttons_message := some bId } ∧
      (lost_update_comments ctx (some "-") sId bId).2 = lost_summary_text ctx.data := by
  intro ctx sId bId
  have hstrip : pyStrip "-" = "-" := by decide
  refine ⟨?_, ?_, ?_, ?_, ?_, ?_, ?_, ?_, ?_, ?_⟩ <;>
    simp [update_location, update_comments, lost_update_location, lost_update_contact,
      lost_update_comments, show_summary, show_lost_summary, hstrip]

/-! ## Claim C7 — edit round-trip frame property -/

/-- Claim C7: from the summary view, triggering `edit:location` and then
supplying a valid text (non-empty, not the skip marker) returns to the
summary view with `location` set to the new value and every other form
field untouched; the re-rendered summary is the render of the old fields
with only `location` replaced. -/
theorem c7_edit_round_trip (ctx : FSMContext) (pid sId bId : Int) (t : String)
    (h1 : t ≠ "") (h2 : pyStrip t ≠ "-") :
    (update_location (handle_edit ctx "edit_location" pid) (some t) sId bId).1.data.location =
        some t ∧
    (update_location (handle_edit ctx "edit_location" pid) (some t) sId bId).1.data.category =
        ctx.data.category ∧
    (update_location (handle_edit ctx "edit_location" pid) (some t) sId bId).1.data.photo =
        ctx.data.photo ∧
    (update_location (handle_edit ctx "edit_location" pid) (some t) sId bId).1.data.comments =
        ctx.data.comments ∧
    (update_location (handle_edit ctx "edit_location" pid) (some t) sId bId).1.data.contact =
        ctx.data.contact ∧
    (update_location (handle_edit ctx "edit_location" pid) (some t) sId bId).2 =
        found_summary_text { ctx.data with location := some t } := by
  have hval : t ≠ "" ∧ pyStrip t ≠ "-" := ⟨h1, h2⟩
  have hact : pyReplace "edit_location" "edit_" "" = "location" := by decide
  refine ⟨?_, ?_, ?_, ?_, ?_, ?_⟩ <;>
    simp [update_location, handle_edit, hact, show_summary, found_summary_text, if_pos hval]

/-- Claim C7 (witness): the spec's own scenario — category `Shoes` set,
`edit:location` then `Room 204`. -/
theorem c7_witness :
    (update_location
        (handle_edit ⟨.FoundItemForm_category, { category := some "Shoes" }⟩ "edit_location" 1)
        (some "Room 204") 2 3).1.data.location = some "Room 204" ∧
    (update_location
        (handle_edit ⟨.FoundItemForm_category, { category := some "Shoes" }⟩ "edit_location" 1)
        (some "Room 204") 2 3).1.data.category = some "Shoes" ∧
    (update_location
        (handle_edit ⟨.FoundItemForm_category, { category := some "Shoes" }⟩ "edit_location" 1)
        (some "Room 204") 2 3).1.data.photo = none ∧
    (update_location
        (handle_edit ⟨.FoundItemForm_category, { category := some "Shoes" }⟩ "edit_location" 1)
        (some "Room 204") 2 3).1.data.comments = none ∧
    (update_location
        (handle_edit ⟨.FoundItemForm_category, { category := some "Shoes" }⟩ "edit_location" 1)
        (some "Room 204") 2 3).1.data.contact = none ∧
    (update_location
        (handle_edit ⟨.FoundItemForm_category, { category := some "Shoes" }⟩ "edit_location" 1)
        (some "Room 204") 2 3).2 =
      found_summary_text { category := some "Shoes", location := some "Room 204" } := by
  exact c7_edit_round_trip ⟨.FoundItemForm_category, { category := some "Shoes" }⟩ 1 2 3
    "Room 204" (by decide) (by decide)

/-! ## Claim C9 — confirm always destroys the conversation record -/

/-- Claim C9: whatever the outcome of the confirm handler of either flow
(success, missing photo, or a failure at the feed post, action attach or
persist step), `state.clear()` runs afterwards: the resulting FSM context
is the cleared one, so the in-flight form cannot be retried. -/
theorem c9_confirm_clears :
    ∀ (ctx ctx2 : FSMContext) (store store2 : List ItemRecord) (subs : List (Int × String))
      (ref ref2 : Int) (p a k p2 a2 k2 : Bool) (failing : List Int),
      (confirm_submission ctx store subs ref p a k failing).fsm = ⟨.idle, {}⟩ ∧
      (lost_confirm_submission ctx2 store2 ref2 p2 a2 k2).fsm = ⟨.idle, {}⟩ := by
  intro ctx ctx2 store store2 subs ref ref2 p a k p2 a2 k2 failing
  constructor
  · cases hph : ctx.data.photo <;> cases p <;> cases a <;> cases k <;>
      simp [confirm_submission, hph]
  · cases p2 <;> cases a2 <;> cases k2 <;> simp [lost_confirm_submission]

/-! ## Claim C2 — which failures surface the failure notice (found flow) -/

/-- Claim C2 (counterexample): with the feed post succeeding and only the
moderation-action attach failing, the found-item confirm handler surfaces
the generic failure notice and skips the persist step — contradicting the
claim that the notice appears only when the feed post fails and that an
attach failure still yields the success report. -/
theorem c2_counterexample :
    (confirm_submission ⟨.FoundItemForm_category, { photo := some "P", category := some "🎒 Bags" }⟩
        [] [] 7 true false true []).notice = "⚠️ Failed to submit form" ∧
    (confirm_submission ⟨.FoundItemForm_category, { photo := some "P", category := some "🎒 Bags" }⟩
        [] [] 7 true false true []).found_items = [] := by
  exact ⟨rfl, rfl⟩

/-- Claim C2 (amended): the generic failure notice is surfaced iff the photo
field is absent or the feed post, the moderation-action attach, or the
record persist fails (all four sit in the handler's single `try` block, so
a step-3 or step-4 failure aborts the remaining steps); the success report
appears iff all of them succeed — per-subscriber delivery failures never
affect the notice either way. -/
theorem c2_failure_notice_amended :
    ∀ (ctx : FSMContext) (store : List ItemRecord) (subs : List (Int × String)) (ref : Int)
      (post_ok attach_ok persist_ok : Bool) (failing : List Int),
      ((confirm_submission ctx store subs ref post_ok attach_ok persist_ok failing).notice =
          "⚠️ Failed to submit form" ↔
        (ctx.data.photo = none ∨ post_ok = false ∨ attach_ok = false ∨ persist_ok = false)) ∧
      ((confirm_submission ctx store subs ref post_ok attach_ok persist_ok failing).notice =
          "✅ Form submitted successfully!" ↔
        (ctx.data.photo ≠ none ∧ post_ok = true ∧ attach_ok = true ∧ persist_ok = true)) := by
  intro ctx store subs ref post_ok attach_ok persist_ok failing
  cases hph : ctx.data.photo <;> cases post_ok <;> cases attach_ok <;> cases persist_ok <;>
    simp [confirm_submission, hph]

/-! ## Claim C3 — successful lost-item confirm persists and reports success -/

/-- Claim C3 (counterexample): a lost-item confirmation whose feed post
succeeds but whose moderation-action attach fails persists nothing and
surfaces the failure notice — contradicting the claim that a successful
feed post suffices for the record to be persisted and success reported. -/
theorem c3_counterexample :
    (lost_confirm_submission ⟨.LostItemForm_category, { category := some "🎒 Bags" }⟩
        [] 7 true false true).notice = "⚠️ Failed to submit lost item report" ∧
    (lost_confirm_submission ⟨.LostItemForm_category, { category := some "🎒 Bags" }⟩
        [] 7 true false true).lost_items = [] := by
  exact ⟨rfl, rfl⟩

/-- Claim C3 (amended): when the feed post, the moderation-action attach and
the store insert all succeed, the lost-item confirm handler persists one
`ItemRecord` carrying the resolved category slug and the feed message
reference, and reports overall success to the submitter. -/
theorem c3_lost_persists_amended :
    ∀ (ctx : FSMContext) (store : List ItemRecord) (ref : Int),
      (lost_confirm_submission ctx store ref true true true).lost_items =
        store ++ [⟨resolveCategoryKey ctx.data.category, intStr ref⟩] ∧
      (lost_confirm_submission ctx store ref true true true).notice =
        "✅ Lost item report submitted successfully!" := by
  intro ctx store ref
  exact ⟨rfl, rfl⟩

/-! ## Claim C8 — per-subscriber delivery independence (found flow) -/

/-- Claim C8: once steps 1–4 of a found-item submission succeed, one
notification delivery is attempted for every subscriber of the resolved
category; the subscribers whose delivery fails are exactly the failing
ones (counted/logged) and every other subscriber — including any listed
after a failing one — still gets their delivery; the submitter's success
report does not depend on the delivery failures. -/
theorem c8_delivery_independence (ctx : FSMContext) (store : List ItemRecord)
    (subs : List (Int × String)) (ref : Int) (failing : List Int)
    (hphoto : ctx.data.photo ≠ none) :
    (confirm_submission ctx store subs ref true true true failing).notice =
        "✅ Form submitted successfully!" ∧
    (confirm_submission ctx store subs ref true true true failing).found_items =
        store ++ [⟨resolveCategoryKey ctx.data.category, intStr ref⟩] ∧
    (confirm_submission ctx store subs ref true true true failing).attempted =
        get_subscribers subs (resolveCategoryKey ctx.data.category) ∧
    (confirm_submission ctx store subs ref true true true failing).delivered =
        (get_subscribers subs (resolveCategoryKey ctx.data.category)).filter
          (fun u => !failing.contains u) ∧
    (confirm_submission ctx store subs ref true true true failing).failed_deliveries =
        (get_subscribers subs (resolveCategoryKey ctx.data.category)).filter
          (fun u => failing.contains u) := by
  rcases hph : ctx.data.photo with _ | p
  · exact absurd hph hphoto
  · refine ⟨?_, ?_, ?_, ?_, ?_⟩ <;> simp [confirm_submission, hph, add_found_item]

/-- Claim C8 (witness): the spec's scenario — photo `P`, category `Bags`,
zero subscribers of `bags`: one `ItemRecord` with slug `bags`, zero
deliveries, and the submission still reports success. -/
theorem c8_witness :
    (confirm_submission ⟨.FoundItemForm_category, { photo := some "P", category := some "🎒 Bags" }⟩
        [] [] 7 true true true []).notice = "✅ Form submitted successfully!" ∧
    (confirm_submission ⟨.FoundItemForm_category, { photo := some "P", category := some "🎒 Bags" }⟩
        [] [] 7 true true true []).found_items =
      [] ++ [⟨resolveCategoryKey (some "🎒 Bags"), intStr 7⟩] ∧
    (confirm_submission ⟨.FoundItemForm_category, { photo := some "P", category := some "🎒 Bags" }⟩
        [] [] 7 true true true []).attempted = get_subscribers [] (resolveCategoryKey (some "🎒 Bags")) ∧
    (confirm_submission ⟨.FoundItemForm_category, { photo := some "P", category := some "🎒 Bags" }⟩
        [] [] 7 true true true []).delivered =
      (get_subscribers [] (resolveCategoryKey (some "🎒 Bags"))).filter (fun u => !([] : List Int).contains u) ∧
    (confirm_submission ⟨.FoundItemForm_category, { photo := some "P", category := some "🎒 Bags" }⟩
        [] [] 7 true true true []).failed_deliveries =
      (get_subscribers [] (resolveCategoryKey (some "🎒 Bags"))).filter (fun u => ([] : List Int).contains u) := by
  exact c8_delivery_independence
    ⟨.FoundItemForm_category, { photo := some "P", category := some "🎒 Bags" }⟩
    [] [] 7 [] (by decide)

/-! ## Claim C4 — malformed action payloads at the dispatch boundary -/

/-- Claim C4 (counterexample): the payload `notif_delete_x` matches the
notification-delete dispatch filter (`startswith("notif_delete_")`), yet
the handler's `int(callback.data.split("_")[-1])` runs before its `try`
block and raises `ValueError` past the dispatch boundary (`none`). -/
theorem c4_counterexample : handle_notification_delete "notif_delete_x" = none := by
  decide

/-- Claim C4 (amended): the channel-undo handler never raises for any
dispatched payload (`parts[2]` always exists for a `ch_undo_`-prefixed
payload and `int(...)` failures are caught inside its `try`), and the
notification-delete handler completes on every well-formed
`notif_delete_<int>` payload — but raises `ValueError` past the dispatch
boundary when the trailing segment is not numeric. -/
theorem c4_dispatch_amended :
    (∀ (rest caption : String) (store : List ItemRecord) (admin edit_ok : Bool),
        handle_channel_undo ("ch_undo_" ++ rest) caption store admin edit_ok ≠ none) ∧
    (∀ i : Int,
        handle_notification_delete ("notif_delete_" ++ intStr i) = some "Notification deleted") ∧
    handle_notification_delete "notif_delete_x" = none := by
  refine ⟨?_, ?_, by decide⟩
  · intro rest caption store admin edit_ok
    rcases hs : pySplit '_' rest with _ | ⟨a, t⟩
    · exact absurd hs (pySplit_ne_nil '_' rest)
    · unfold handle_channel_undo
      rw [pySplit_ch_undo, hs]
      cases admin <;> cases edit_ok <;> rcases hpi : pyInt? a with _ | n <;> simp [hpi]
  · intro i
    unfold handle_notification_delete
    rw [pySplit_notif_delete _ (fun x hx => intStr_chars hx)]
    have hlast : (["notif", "delete", intStr i] : List String).getLast?.getD "" = intStr i := rfl
    rw [hlast, pyInt?_intStr]

/-! ## Claim C1 — claim/unclaim round trip on the moderation overlay -/

/-- Claim C1 (counterexample): for the category slug `money_cards` (which
contains an underscore) with feed reference `7`, claiming and then
performing the attached undo action `ch_undo_7_money_cards` leaves one
record with category `money` — the undo handler reads only `parts[3]` of
the underscore-split payload, truncating the slug — so the store does not
match the pre-claim state. -/
theorem c1_counterexample :
    ((handle_channel_found "ch_found_7" "cap" [⟨"money_cards", "7"⟩] true true).bind
        (fun r1 => handle_channel_undo "ch_undo_7_money_cards" r1.caption r1.store true true)).map
      (fun r2 => r2.store.filter (fun r => r.message_id = "7")) = some [⟨"money", "7"⟩] ∧
    (⟨"money", "7"⟩ : ItemRecord) ≠ ⟨"money_cards", "7"⟩ := by
  exact ⟨rfl, by decide⟩

/-- Claim C1 (amended): for a nonempty category slug containing no
underscore, the round trip holds: with exactly one stored `ItemRecord`
carrying category `c` and feed reference `ref`, the admin claim action on
`ref` prepends the claimed banner to the caption, attaches the undo action
carrying `ref` and `c`, and deletes the record (no record with reference
`ref` remains); performing the undo action then leaves exactly one
`ItemRecord` with category `c` and reference `ref` — the pre-claim
state. -/
theorem c1_round_trip_amended (store : List ItemRecord) (caption : String) (ref : Int)
    (c : String) (hc0 : c ≠ "") (hc1 : ∀ x ∈ c.data, x ≠ '_')
    (hstore : store.filter (fun r => r.message_id = intStr ref) = [⟨c, intStr ref⟩]) :
    ∃ r1 r2 : ModResult,
      handle_channel_found ("ch_found_" ++ intStr ref) caption store true true = some r1 ∧
      handle_channel_undo ("ch_undo_" ++ intStr ref ++ "_" ++ c) r1.caption r1.store true true =
        some r2 ∧
      r1.caption = CLAIMED_BANNER ++ caption ∧
      r1.button_payload = some ("ch_undo_" ++ intStr ref ++ "_" ++ c) ∧
      r1.store.filter (fun r => r.message_id = intStr ref) = [] ∧
      r2.store.filter (fun r => r.message_id = intStr ref) = [⟨c, intStr ref⟩] := by
  have hcat : get_item_category store (intStr ref) = some c := by
    unfold get_item_category
    rw [find?_eq_head?_filter, hstore]
    rfl
  have hfound : handle_channel_found ("ch_found_" ++ intStr ref) caption store true true =
      some ⟨delete_item store (intStr ref), CLAIMED_BANNER ++ caption,
            some ("ch_undo_" ++ intStr ref ++ "_" ++ c), "✅ Marked as claimed!"⟩ := by
    unfold handle_channel_found
    rw [pySplit_ch_found _ (fun x hx => intStr_chars hx)]
    simp [hcat, hc0, pyInt?_intStr]
  have hundo : handle_channel_undo ("ch_undo_" ++ intStr ref ++ "_" ++ c)
      (CLAIMED_BANNER ++ caption) (delete_item store (intStr ref)) true true =
      some ⟨add_found_item (delete_item store (intStr ref)) c ref,
            pyReplace (CLAIMED_BANNER ++ caption) CLAIMED_BANNER "",
            some ("ch_found_" ++ intStr ref), "↩️ Undo successful — item restored!"⟩ := by
    unfold handle_channel_undo
    rw [pySplit_undo_payload ref c hc1]
    simp [pyInt?_intStr]
  refine ⟨_, _, hfound, hundo, rfl, rfl, filter_delete_item store (intStr ref), ?_⟩
  show (add_found_item (delete_item store (intStr ref)) c ref).filter
      (fun r => r.message_id = intStr ref) = [⟨c, intStr ref⟩]
  unfold add_found_item
  rw [List.filter_append, filter_delete_item]
  simp

/-- Claim C1 (witness): one `bags` record with reference `42`; claim then
undo restores exactly it. -/
theorem c1_witness :
    ∃ r1 r2 : ModResult,
      handle_channel_found ("ch_found_" ++ intStr 42) "cap" [⟨"bags", "42"⟩] true true = some r1 ∧
      handle_channel_undo ("ch_undo_" ++ intStr 42 ++ "_" ++ "bags") r1.caption r1.store true true =
        some r2 ∧
      r1.caption = CLAIMED_BANNER ++ "cap" ∧
      r1.button_payload = some ("ch_undo_" ++ intStr 42 ++ "_" ++ "bags") ∧
      r1.store.filter (fun r => r.message_id = intStr 42) = [] ∧
      r2.store.filter (fun r => r.message_id = intStr 42) = [⟨"bags", intStr 42⟩] := by
  exact c1_round_trip_amended [⟨"bags", "42"⟩] "cap" 42 "bags" (by decide) (by decide) (by decide)

end CampusFind
